import Mathlib

/-!
Verification development for the `grib-rs` GRIB2 core: a shallow embedding of
`src/parser.rs` (stream scanner and submessage resolver) and
`src/decoders/jpeg2000/mod.rs` (JPEG 2000 submessage decode), together with
models of the simple-packing arithmetic and the sign-magnitude integer
convention used by those modules.

Modelling conventions:
- Machine integers (`u8`, `u16`, `u32`, `u64`, `usize`) are modelled as `Nat`;
  all values handled here stay far below any wraparound boundary except where
  noted, and Rust's (debug-build) panicking unsigned subtraction is modelled
  explicitly by a `panic` outcome.
- Byte streams are `List Nat` (each element one octet).
- Rust references `&SectionInfo` held inside a `SubMessage` are modelled as
  indices into the section-descriptor list (the resolver only ever hands out
  references to elements of that single list).
- Fallible Rust functions returning `Result` are modelled with `Except`.
- Floating-point reference values are modelled over `ℚ` (exact arithmetic);
  see the doc comments on `f32ToRat` and `simplePackingDecode`.
-/

/-- Big-endian interpretation of a list of octets as an unsigned integer,
as performed by the `read_as!` macro via `from_be_bytes`. -/
def beNat (l : List Nat) : Nat := l.foldl (fun a b => a * 256 + b) 0

/-- Model of `read_as!(ty, buf, start)`: big-endian decode of `width` bytes of
`buf` starting at offset `start`. -/
def readBE (buf : List Nat) (start width : Nat) : Nat :=
  beNat ((buf.drop start).take width)

/-- Modelled from the spec: `GribInt::as_grib_int` for `u16` (crate module
`utils`, not present under `src/`). Sign-magnitude decoding of a 16-bit
field: the high bit is the sign, the remaining 15 bits are the magnitude
(spec §3 "Signed-field convention" and §9 "Sign-magnitude integers"). -/
def as_grib_int (x : Nat) : Int :=
  if x < 32768 then (x : Int) else -(((x % 32768 : Nat)) : Int)

/-- Modelled from the spec: `SimplePackingDecodeIterator` (crate module
`decoders::simple`, not present under `src/`). Each raw integer `X` is mapped
to `(R + X * 2^E) * 10^(-D)` (spec §4.4), one output per input. The spec's
64-bit floating-point intermediate and 32-bit narrowing are modelled by exact
rational arithmetic. -/
def simplePackingDecode (xs : List Int) (r : ℚ) (e d : Int) : List ℚ :=
  xs.map (fun x : Int => (r + (x : ℚ) * (2 : ℚ) ^ e) * (10 : ℚ) ^ (-d))

/-- Exact rational value of an IEEE-754 binary32 bit pattern, used to model
`read_as!(f32, ...)` for the §5 reference value. Bit patterns with biased
exponent 255 (infinities and NaNs) have no rational value and are mapped to 0;
no property proved below depends on the reference value. -/
def f32ToRat (b : Nat) : ℚ :=
  let s : Nat := b / 2 ^ 31 % 2
  let e : Nat := b / 2 ^ 23 % 256
  let m : Nat := b % 2 ^ 23
  let mag : ℚ :=
    if e = 0 then (m : ℚ) * (2 : ℚ) ^ (-(149 : Int))
    else if e = 255 then 0
    else ((2 ^ 23 + m : Nat) : ℚ) * (2 : ℚ) ^ ((e : Int) - 150)
  if s = 1 then -mag else mag

namespace GribParser

/-- `RefTime` from `src/parser.rs`. -/
structure RefTime where
  year : Nat
  month : Nat
  date : Nat
  hour : Nat
  minute : Nat
  second : Nat
deriving DecidableEq, Repr

/-- `Identification` from `src/parser.rs`. -/
structure Identification where
  centre_id : Nat
  subcentre_id : Nat
  master_table_version : Nat
  local_table_version : Nat
  ref_time_significance : Nat
  ref_time : RefTime
  prod_status : Nat
  data_type : Nat
deriving DecidableEq, Repr

/-- `SectionBody` from `src/parser.rs`. -/
inductive SectionBody where
  | Section1 (body : Identification)
  | Section2
  | Section3 (num_points : Nat) (grid_tmpl_num : Nat)
  | Section4 (num_coordinates : Nat) (prod_tmpl_num : Nat)
  | Section5 (num_points : Nat) (repr_tmpl_num : Nat)
  | Section6 (bitmap_indicator : Nat)
  | Section7
deriving DecidableEq, Repr

/-- `SectionInfo` from `src/parser.rs`. -/
structure SectionInfo where
  num : Nat
  offset : Nat
  size : Nat
  body : Option SectionBody
deriving DecidableEq, Repr

/-- `ParseError` from `src/parser.rs`. The spec's error taxonomy names
`GRIB2IterationSuddenlyFinished` as `IterationEndedUnexpectedly` and
`GRIB2WrongIteration` as `WrongIteration`. -/
inductive ParseError where
  | ReadError (msg : String)
  | NotGRIB
  | GRIBVersionMismatch (version : Nat)
  | UnknownSectionNumber (num : Nat)
  | EndSectionMismatch
  | GRIB2IterationSuddenlyFinished
  | NoGridDefinition (i : Nat)
  | GRIB2WrongIteration (i : Nat)
deriving DecidableEq, Repr

/-- `SubMessage` from `src/parser.rs`. The Rust struct holds
`Option<&SectionInfo>` references into the scanned descriptor list; a
reference to the descriptor at position `j` is modelled as `some j`. -/
structure SubMessage where
  section2 : Option Nat
  section3 : Option Nat
  section4 : Option Nat
  section5 : Option Nat
  section6 : Option Nat
  section7 : Option Nat
deriving DecidableEq, Repr

/-- The repeated `check!(num)` macro invocations of `get_submessages`: starting
at position `i`, consume one descriptor per expected section number in `nums`.
A missing descriptor is `GRIB2IterationSuddenlyFinished`; a descriptor whose
number differs from the expected one is `GRIB2WrongIteration` at its index.
On success the remaining descriptors are returned. -/
def expectTail (i : Nat) : List Nat → List SectionInfo → Except ParseError (List SectionInfo)
  | [], l => .ok l
  | _ :: _, [] => .error .GRIB2IterationSuddenlyFinished
  | n :: ns, s :: rest =>
    if s.num = n then expectTail (i + 1) ns rest
    else .error (.GRIB2WrongIteration i)

/-- The main loop of `get_submessages` (`src/parser.rs` lines 286-354).
`total` is `sects.len()`, `l` the not-yet-consumed descriptors, `i` the
position of the head of `l` in the full list, `d2`/`d3` the carried
`sect2_default`/`sect3_default`. The `fuel` argument only bounds the number of
loop iterations so that the recursion is structural; every iteration of the
Rust loop consumes at least one descriptor, so the initial fuel
`sects.length` supplied by `get_submessages` can never run out. -/
def submLoop (total : Nat) :
    Nat → List SectionInfo → Nat → Option Nat → Option Nat →
    Except ParseError (List SubMessage)
  | 0, _, _, _, _ => .error .GRIB2IterationSuddenlyFinished
  | _ + 1, [], _, _, _ => .error .GRIB2IterationSuddenlyFinished
  | fuel + 1, s :: rest, i, d2, d3 =>
    if s.num = 2 then
      match expectTail (i + 1) [3, 4, 5, 6, 7] rest with
      | .error e => .error e
      | .ok r =>
        match submLoop total fuel r (i + 6) (some i) (some (i + 1)) with
        | .error e => .error e
        | .ok subs =>
          .ok (⟨some i, some (i + 1), some (i + 2), some (i + 3), some (i + 4),
                some (i + 5)⟩ :: subs)
    else if s.num = 3 then
      match expectTail (i + 1) [4, 5, 6, 7] rest with
      | .error e => .error e
      | .ok r =>
        match submLoop total fuel r (i + 5) d2 (some i) with
        | .error e => .error e
        | .ok subs =>
          .ok (⟨d2, some i, some (i + 1), some (i + 2), some (i + 3),
                some (i + 4)⟩ :: subs)
    else if s.num = 4 then
      if d3 = none then .error (.NoGridDefinition i)
      else
        match expectTail (i + 1) [5, 6, 7] rest with
        | .error e => .error e
        | .ok r =>
          match submLoop total fuel r (i + 4) d2 d3 with
          | .error e => .error e
          | .ok subs =>
            .ok (⟨d2, d3, some i, some (i + 1), some (i + 2),
                  some (i + 3)⟩ :: subs)
    else if s.num = 8 then
      if d3 = none then .error (.NoGridDefinition i)
      else if i < total - 1 then .error (.GRIB2WrongIteration i)
      else .ok []
    else .error (.GRIB2WrongIteration i)

/-- `get_submessages` from `src/parser.rs` (lines 257-357): validate the
section order and split the descriptors into submessages. -/
def get_submessages (sects : List SectionInfo) : Except ParseError (List SubMessage) :=
  match sects with
  | [] => .error .GRIB2IterationSuddenlyFinished
  | s :: rest =>
    if s.num = 1 then submLoop sects.length sects.length rest 1 none none
    else .error (.GRIB2WrongIteration 0)

/-- The `sect_list!` test macro of `src/parser.rs`: descriptors with the given
section numbers and zeroed offset, size and body. -/
def mkSects (nums : List Nat) : List SectionInfo :=
  nums.map (fun n => ⟨n, 0, 0, none⟩)

/-- Outcome of running scanner code compiled in a checked (debug) Rust build:
either a `ParseError` value or a panic from an overflowing `usize`
subtraction. -/
inductive ScanErr where
  | panic
  | parseErr (e : ParseError)
deriving DecidableEq, Repr

/-- Lift a `ParseError` into a scanner outcome. -/
def perr (e : ParseError) : ScanErr := .parseErr e

/-- `Read::read_exact` on an in-memory byte stream: take exactly `n` octets or
fail with the `io::Error` that `ParseError::from` turns into `ReadError`. -/
def read_exact (n : Nat) (b : List Nat) :
    Except ScanErr (List Nat × List Nat) :=
  if n ≤ b.length then .ok (b.take n, b.drop n)
  else .error (perr (.ReadError "failed to fill whole buffer"))

/-- Rust `usize` subtraction `a - b`, which panics on underflow in a checked
build instead of returning an error. -/
def subUsize (a b : Nat) : Except ScanErr Nat :=
  if b ≤ a then .ok (a - b) else .error .panic

/-- Consume `n` octets of body tail, as the `len_extra > 0` blocks of the
section body parsers do. -/
def skipBytes (n : Nat) (b : List Nat) : Except ScanErr (List Nat) :=
  if n > 0 then
    match read_exact n b with
    | .error e => .error e
    | .ok (_, rest) => .ok rest
  else .ok b

/-- `unpack_sect0` from `src/parser.rs`: read the 16-octet envelope, check the
`GRIB` magic and the version octet, and return the declared total message
length (64-bit big-endian at offset 8). -/
def unpack_sect0 (b : List Nat) : Except ScanErr (Nat × List Nat) :=
  match read_exact 16 b with
  | .error e => .error e
  | .ok (buf, rest) =>
    if buf.take 4 ≠ [71, 82, 73, 66] then .error (perr .NotGRIB)
    else
      let version := buf.getD 7 0
      if version ≠ 2 then .error (perr (.GRIBVersionMismatch version))
      else .ok (readBE buf 8 8, rest)

/-- `unpack_sect1_body` from `src/parser.rs`. -/
def unpack_sect1_body (b : List Nat) (body_size : Nat) :
    Except ScanErr (SectionBody × List Nat) :=
  match read_exact 16 b with
  | .error e => .error e
  | .ok (buf, b) =>
    match subUsize body_size 16 with
    | .error e => .error e
    | .ok len_extra =>
      match skipBytes len_extra b with
      | .error e => .error e
      | .ok b =>
        .ok (.Section1
          { centre_id := readBE buf 0 2
            subcentre_id := readBE buf 2 2
            master_table_version := buf.getD 4 0
            local_table_version := buf.getD 5 0
            ref_time_significance := buf.getD 6 0
            ref_time :=
              { year := readBE buf 7 2
                month := buf.getD 9 0
                date := buf.getD 10 0
                hour := buf.getD 11 0
                minute := buf.getD 12 0
                second := buf.getD 13 0 }
            prod_status := buf.getD 14 0
            data_type := buf.getD 15 0 }, b)

/-- `unpack_sect2_body` from `src/parser.rs`: the whole body is opaque. -/
def unpack_sect2_body (b : List Nat) (body_size : Nat) :
    Except ScanErr (SectionBody × List Nat) :=
  match skipBytes body_size b with
  | .error e => .error e
  | .ok b => .ok (.Section2, b)

/-- `unpack_sect3_body` from `src/parser.rs`. -/
def unpack_sect3_body (b : List Nat) (body_size : Nat) :
    Except ScanErr (SectionBody × List Nat) :=
  match read_exact 9 b with
  | .error e => .error e
  | .ok (buf, b) =>
    match subUsize body_size 9 with
    | .error e => .error e
    | .ok len_extra =>
      match skipBytes len_extra b with
      | .error e => .error e
      | .ok b => .ok (.Section3 (readBE buf 1 4) (readBE buf 7 2), b)

/-- `unpack_sect4_body` from `src/parser.rs`. -/
def unpack_sect4_body (b : List Nat) (body_size : Nat) :
    Except ScanErr (SectionBody × List Nat) :=
  match read_exact 4 b with
  | .error e => .error e
  | .ok (buf, b) =>
    match subUsize body_size 4 with
    | .error e => .error e
    | .ok len_extra =>
      match skipBytes len_extra b with
      | .error e => .error e
      | .ok b => .ok (.Section4 (readBE buf 0 2) (readBE buf 2 2), b)

/-- `unpack_sect5_body` from `src/parser.rs`. -/
def unpack_sect5_body (b : List Nat) (body_size : Nat) :
    Except ScanErr (SectionBody × List Nat) :=
  match read_exact 6 b with
  | .error e => .error e
  | .ok (buf, b) =>
    match subUsize body_size 6 with
    | .error e => .error e
    | .ok len_extra =>
      match skipBytes len_extra b with
      | .error e => .error e
      | .ok b => .ok (.Section5 (readBE buf 0 4) (readBE buf 4 2), b)

/-- `unpack_sect6_body` from `src/parser.rs`. -/
def unpack_sect6_body (b : List Nat) (body_size : Nat) :
    Except ScanErr (SectionBody × List Nat) :=
  match read_exact 1 b with
  | .error e => .error e
  | .ok (buf, b) =>
    match subUsize body_size 1 with
    | .error e => .error e
    | .ok len_extra =>
      match skipBytes len_extra b with
      | .error e => .error e
      | .ok b => .ok (.Section6 (buf.getD 0 0), b)

/-- `unpack_sect7_body` from `src/parser.rs`: the whole body is opaque. -/
def unpack_sect7_body (b : List Nat) (body_size : Nat) :
    Except ScanErr (SectionBody × List Nat) :=
  match skipBytes body_size b with
  | .error e => .error e
  | .ok b => .ok (.Section7, b)

/-- `unpack_sect8` from `src/parser.rs`: the 4-octet `7777` end sentinel. -/
def unpack_sect8 (b : List Nat) : Except ScanErr (List Nat) :=
  match read_exact 4 b with
  | .error e => .error e
  | .ok (buf, rest) =>
    if buf ≠ [55, 55, 55, 55] then .error (perr .EndSectionMismatch)
    else .ok rest

/-- `unpack_sect_header` from `src/parser.rs`: 4-octet big-endian section size
followed by the 1-octet section number; offset and body are filled in by the
scanner. -/
def unpack_sect_header (b : List Nat) :
    Except ScanErr (SectionInfo × List Nat) :=
  match read_exact 5 b with
  | .error e => .error e
  | .ok (buf, rest) => .ok (⟨buf.getD 4 0, 0, readBE buf 0 4, none⟩, rest)

/-- `SectionInfo::read_body` from `src/parser.rs`: subtract the 5-octet header
size (panicking on underflow in a checked build) and dispatch on the section
number. -/
def read_body (num size : Nat) (b : List Nat) :
    Except ScanErr (SectionBody × List Nat) :=
  match subUsize size 5 with
  | .error e => .error e
  | .ok body_size =>
    match num with
    | 1 => unpack_sect1_body b body_size
    | 2 => unpack_sect2_body b body_size
    | 3 => unpack_sect3_body b body_size
    | 4 => unpack_sect4_body b body_size
    | 5 => unpack_sect5_body b body_size
    | 6 => unpack_sect6_body b body_size
    | 7 => unpack_sect7_body b body_size
    | _ => .error (perr (.UnknownSectionNumber num))

/-- The loop of `scan` from `src/parser.rs` (lines 229-250). `whole` is the
declared message length, `rest_size` the remaining budget, `acc` the
descriptors pushed so far. `fuel` only bounds the iteration count so that the
recursion is structural; every iteration subtracts a section size of at least
5 from `rest_size` (smaller sizes panic in `read_body`), so the initial fuel
`rest_size + 1` supplied by `scan` can never run out. -/
def scanLoop (whole : Nat) :
    Nat → List Nat → Nat → List SectionInfo → Except ScanErr (List SectionInfo)
  | 0, _, _, _ => .error .panic
  | fuel + 1, b, rest_size, acc =>
    if rest_size = 4 then
      match unpack_sect8 b with
      | .error e => .error e
      | .ok _ => .ok (acc ++ [⟨8, whole - rest_size, 4, none⟩])
    else
      match unpack_sect_header b with
      | .error e => .error e
      | .ok (si, b) =>
        match read_body si.num si.size b with
        | .error e => .error e
        | .ok (body, b) =>
          match subUsize rest_size si.size with
          | .error e => .error e
          | .ok rest' =>
            scanLoop whole fuel b rest'
              (acc ++ [⟨si.num, whole - rest_size, si.size, some body⟩])

/-- `scan` from `src/parser.rs` (lines 224-253): read the envelope, then frame
and decode every section of the message. -/
def scan (b : List Nat) : Except ScanErr (List SectionInfo) :=
  match unpack_sect0 b with
  | .error e => .error e
  | .ok (whole, b) =>
    match subUsize whole 16 with
    | .error e => .error e
    | .ok rest_size => scanLoop whole (rest_size + 1) b rest_size []

/-- Sum of the `size` fields of a descriptor list. -/
def sumSizes (sects : List SectionInfo) : Nat :=
  (sects.map SectionInfo.size).sum

/-- The descriptor sequence of the sample file asserted by the `read_normal`
test in `src/parser.rs` (lines 553-829): sections 1,3,4,5,6,7, six further
4,5,6,7 groups, and the end section, with the offsets, sizes and bodies from
that test. -/
def sampleSects : List SectionInfo :=
  [⟨1, 16, 21, some (.Section1 ⟨34, 0, 5, 1, 0, ⟨2016, 8, 22, 2, 0, 0⟩, 0, 2⟩)⟩,
   ⟨3, 37, 72, some (.Section3 86016 0)⟩,
   ⟨4, 109, 34, some (.Section4 0 0)⟩,
   ⟨5, 143, 23, some (.Section5 86016 200)⟩,
   ⟨6, 166, 6, some (.Section6 255)⟩,
   ⟨7, 172, 1391, some .Section7⟩,
   ⟨4, 1563, 34, some (.Section4 0 0)⟩,
   ⟨5, 1597, 23, some (.Section5 86016 200)⟩,
   ⟨6, 1620, 6, some (.Section6 255)⟩,
   ⟨7, 1626, 1399, some .Section7⟩,
   ⟨4, 3025, 34, some (.Section4 0 0)⟩,
   ⟨5, 3059, 23, some (.Section5 86016 200)⟩,
   ⟨6, 3082, 6, some (.Section6 255)⟩,
   ⟨7, 3088, 1404, some .Section7⟩,
   ⟨4, 4492, 34, some (.Section4 0 0)⟩,
   ⟨5, 4526, 23, some (.Section5 86016 200)⟩,
   ⟨6, 4549, 6, some (.Section6 255)⟩,
   ⟨7, 4555, 1395, some .Section7⟩,
   ⟨4, 5950, 34, some (.Section4 0 0)⟩,
   ⟨5, 5984, 23, some (.Section5 86016 200)⟩,
   ⟨6, 6007, 6, some (.Section6 255)⟩,
   ⟨7, 6013, 1395, some .Section7⟩,
   ⟨4, 7408, 34, some (.Section4 0 0)⟩,
   ⟨5, 7442, 23, some (.Section5 86016 200)⟩,
   ⟨6, 7465, 6, some (.Section6 255)⟩,
   ⟨7, 7471, 1397, some .Section7⟩,
   ⟨4, 8868, 34, some (.Section4 0 0)⟩,
   ⟨5, 8902, 23, some (.Section5 86016 200)⟩,
   ⟨6, 8925, 6, some (.Section6 255)⟩,
   ⟨7, 8931, 1386, some .Section7⟩,
   ⟨8, 10317, 4, none⟩]

/-- The seven submessages the resolver produces from `sampleSects`. -/
def sampleSubs : List SubMessage :=
  [⟨none, some 1, some 2, some 3, some 4, some 5⟩,
   ⟨none, some 1, some 6, some 7, some 8, some 9⟩,
   ⟨none, some 1, some 10, some 11, some 12, some 13⟩,
   ⟨none, some 1, some 14, some 15, some 16, some 17⟩,
   ⟨none, some 1, some 18, some 19, some 20, some 21⟩,
   ⟨none, some 1, some 22, some 23, some 24, some 25⟩,
   ⟨none, some 1, some 26, some 27, some 28, some 29⟩]

/-- A minimal well-formed 41-byte GRIB2 message: envelope declaring total
length 41, a single section 1 of size 21 with an all-zero body, and the end
sentinel. -/
def ex41 : List Nat :=
  [71, 82, 73, 66, 0, 0, 0, 2, 0, 0, 0, 0, 0, 0, 0, 41] ++
  [0, 0, 0, 21, 1] ++ List.replicate 16 0 ++
  [55, 55, 55, 55]

/-- An envelope declaring a total message length of 10, smaller than the
16-byte section 0 itself. -/
def exDeclaredTooSmall : List Nat :=
  [71, 82, 73, 66, 0, 0, 0, 2, 0, 0, 0, 0, 0, 0, 0, 10]

/-- A message whose first section header declares a section size of 3,
smaller than the 5-byte section header itself. -/
def exSectSizeTooSmall : List Nat :=
  [71, 82, 73, 66, 0, 0, 0, 2, 0, 0, 0, 0, 0, 0, 0, 30] ++ [0, 0, 0, 3, 1]

/-- A message declaring a total length of 30 whose first section declares
size 21, overshooting the 14-byte remaining budget. -/
def exOvershoot : List Nat :=
  [71, 82, 73, 66, 0, 0, 0, 2, 0, 0, 0, 0, 0, 0, 0, 30] ++
  [0, 0, 0, 21, 1] ++ List.replicate 16 0

/-- An accepted descriptor sequence whose offsets decrease with position:
the resolver never inspects offsets, so it accepts this sequence even though
the referenced offsets are not monotonically increasing. -/
def exC7 : List SectionInfo :=
  [⟨1, 0, 0, none⟩, ⟨3, 10, 0, none⟩, ⟨4, 9, 0, none⟩, ⟨5, 8, 0, none⟩,
   ⟨6, 7, 0, none⟩, ⟨7, 6, 0, none⟩, ⟨8, 5, 0, none⟩]

/-- An accepted descriptor sequence whose offsets strictly increase with
position, as the scanner produces. -/
def exC7mono : List SectionInfo :=
  [⟨1, 0, 5, none⟩, ⟨3, 5, 5, none⟩, ⟨4, 10, 5, none⟩, ⟨5, 15, 5, none⟩,
   ⟨6, 20, 5, none⟩, ⟨7, 25, 5, none⟩, ⟨8, 30, 4, none⟩]

/-- A descriptor sequence with the section numbers of
`get_submessages_sect4_loop` and arbitrary nonzero offsets, sizes and
bodies. -/
def exC9a : List SectionInfo :=
  [⟨1, 16, 21, some (.Section1 ⟨34, 0, 5, 1, 0, ⟨2016, 8, 22, 2, 0, 0⟩, 0, 2⟩)⟩,
   ⟨2, 37, 11, some .Section2⟩,
   ⟨3, 48, 72, some (.Section3 86016 0)⟩,
   ⟨4, 120, 34, some (.Section4 0 0)⟩,
   ⟨5, 154, 23, some (.Section5 86016 200)⟩,
   ⟨6, 177, 6, some (.Section6 255)⟩,
   ⟨7, 183, 1391, some .Section7⟩,
   ⟨4, 1574, 34, some (.Section4 0 0)⟩,
   ⟨5, 1608, 23, some (.Section5 86016 200)⟩,
   ⟨6, 1631, 6, some (.Section6 255)⟩,
   ⟨7, 1637, 1399, some .Section7⟩,
   ⟨8, 3036, 4, none⟩]

/-- The same section numbers as `exC9a` with every offset, size and body
replaced by other arbitrary values. -/
def exC9b : List SectionInfo :=
  mkSects [1, 2, 3, 4, 5, 6, 7, 4, 5, 6, 7, 8]

/-- Section number of the descriptor at position `j`, if any. -/
def numAt (sects : List SectionInfo) (j : Nat) : Option Nat :=
  (sects.get? j).map SectionInfo.num

/-- Structural well-formedness of a produced submessage with respect to the
descriptor list: sections 3-7 are referenced at strictly increasing positions
carrying the matching section numbers, and the optional §2 reference points
at a §2 descriptor strictly before the §3 one. -/
def GoodSub (sects : List SectionInfo) (m : SubMessage) : Prop :=
  ∃ i3 i4 i5 i6 i7,
    m.section3 = some i3 ∧ m.section4 = some i4 ∧ m.section5 = some i5 ∧
    m.section6 = some i6 ∧ m.section7 = some i7 ∧
    numAt sects i3 = some 3 ∧ numAt sects i4 = some 4 ∧
    numAt sects i5 = some 5 ∧ numAt sects i6 = some 6 ∧
    numAt sects i7 = some 7 ∧
    i3 < i4 ∧ i4 < i5 ∧ i5 < i6 ∧ i6 < i7 ∧
    (m.section2 = none ∨
      ∃ i2, m.section2 = some i2 ∧ numAt sects i2 = some 2 ∧ i2 < i3)

end GribParser

namespace Jpeg2000

/-- `Jpeg2000CodeStreamDecodeError` from `src/decoders/jpeg2000/mod.rs`. -/
inductive Jpeg2000CodeStreamDecodeError where
  | NotSupported
  | DecoderSetupError
  | MainHeaderReadError
  | BodyReadError
  | LengthMismatch
deriving DecidableEq, Repr

/-- Modelled from the spec: the `SimplePackingDecodeError` kind of the crate's
error taxonomy (crate module `error`, not present under `src/`), spec §7:
`SimplePacking(OriginalFieldValueTypeNotSupported | LengthMismatch)`. -/
inductive SimplePackingDecodeError where
  | OriginalFieldValueTypeNotSupported
  | LengthMismatch
deriving DecidableEq, Repr

/-- Modelled from the spec: the decode-error kind of the crate's error
taxonomy (crate module `error`, not present under `src/`), restricted to the
variants `decode` in `src/decoders/jpeg2000/mod.rs` constructs. -/
inductive DecodeError where
  | BitMapIndicatorUnsupported
  | SimplePackingDecodeError (e : SimplePackingDecodeError)
  | Jpeg2000CodeStreamDecodeError (e : Jpeg2000CodeStreamDecodeError)
deriving DecidableEq, Repr

/-- Modelled from the spec: the top-level `GribError` of the crate's error
taxonomy (crate module `error`, not present under `src/`), restricted to the
variants `decode` constructs. -/
inductive GribError where
  | InternalDataError
  | DecodeError (e : DecodeError)
deriving DecidableEq, Repr

/-- The §5 body as used by `decode` via the crate's `context` module (not
present under `src/`): only the `num_points()` accessor is consumed. -/
structure Sect5Body where
  num_points : Nat
deriving DecidableEq, Repr

/-- The §6 body as used by `decode`: only the bitmap indicator is consumed. -/
structure Sect6Body where
  bitmap_indicator : Nat
deriving DecidableEq, Repr

/-- The section-body variants of the crate's `context` module (not present
under `src/`) that `decode` matches on; every variant other than `Section5`
and `Section6` falls into the wildcard arm of the match. -/
inductive SectionBody where
  | Section5 (b : Sect5Body)
  | Section6 (b : Sect6Body)
  | OtherSection
deriving DecidableEq, Repr

/-- Outcome of `decode` in a checked Rust build: a value, a `GribError`, or a
panic from slicing a too-short §5 payload in `read_as!`. -/
inductive DecodeResult where
  | ok (values : List ℚ)
  | err (e : GribError)
  | panic
deriving DecidableEq, Repr

/-- `Grib2DataDecode::decode` for `Jpeg2000CodeStreamDecoder`
(`src/decoders/jpeg2000/mod.rs` lines 27-73). The byte reader is modelled by
the already-fetched §5 payload `sect5_payload`, and `Stream::from_bytes`
together with `decode_jp2` on the §7 payload by the oracle `jp2_unpacked`
(both error paths are mapped to `Jpeg2000CodeStreamDecodeError` alike in the
source). The simple-packing arithmetic is the spec-modelled
`simplePackingDecode`. -/
def decode (sect5_body sect6_body : Option SectionBody)
    (sect5_payload : List Nat)
    (jp2_unpacked : Except Jpeg2000CodeStreamDecodeError (List Int)) :
    DecodeResult :=
  match sect5_body, sect6_body with
  | some (.Section5 b5), some (.Section6 b6) =>
    if b6.bitmap_indicator ≠ 255 then
      .err (.DecodeError .BitMapIndicatorUnsupported)
    else if sect5_payload.length < 16 then .panic
    else
      let ref_val := f32ToRat (readBE sect5_payload 6 4)
      let exp := as_grib_int (readBE sect5_payload 10 2)
      let dig := as_grib_int (readBE sect5_payload 12 2)
      let value_type := readBE sect5_payload 15 1
      if value_type ≠ 0 then
        .err (.DecodeError
          (.SimplePackingDecodeError .OriginalFieldValueTypeNotSupported))
      else
        match jp2_unpacked with
        | .error e => .err (.DecodeError (.Jpeg2000CodeStreamDecodeError e))
        | .ok xs =>
          let decoded := simplePackingDecode xs ref_val exp dig
          if decoded.length ≠ b5.num_points then
            .err (.DecodeError (.SimplePackingDecodeError .LengthMismatch))
          else .ok decoded
  | _, _ => .err .InternalDataError

end Jpeg2000

namespace GribParser

lemma drop_cons_get {sects : List SectionInfo} {i : Nat} {s : SectionInfo}
    {rest : List SectionInfo} (h : sects.drop i = s :: rest) :
    sects.get? i = some s ∧ sects.drop (i + 1) = rest := by
  constructor
  · have h0 : (sects.drop i).get? 0 = some s := by rw [h]; rfl
    rwa [List.get?_drop, Nat.add_zero] at h0
  · have h1 : (sects.drop i).drop 1 = rest := by rw [h]; rfl
    rw [List.drop_drop] at h1
    simpa [Nat.add_comm] using h1

lemma expectTail_ok_drop :
    ∀ (ns : List Nat) (i : Nat) (l r : List SectionInfo),
      expectTail i ns l = .ok r → r = l.drop ns.length := by
  intro ns
  induction ns with
  | nil =>
    intro i l r h
    simp only [expectTail] at h
    cases h
    rfl
  | cons n ns ih =>
    intro i l r h
    cases l with
    | nil => simp [expectTail] at h
    | cons s rest =>
      simp only [expectTail] at h
      by_cases hn : s.num = n
      · rw [if_pos hn] at h
        simpa using ih (i + 1) rest r h
      · rw [if_neg hn] at h
        cases h

lemma expectTail_ok_num :
    ∀ (ns : List Nat) (i : Nat) (l r : List SectionInfo),
      expectTail i ns l = .ok r →
      ∀ k, k < ns.length → (l.get? k).map SectionInfo.num = ns.get? k := by
  intro ns
  induction ns with
  | nil =>
    intro i l r _ k hk
    simp at hk
  | cons n ns ih =>
    intro i l r h k hk
    cases l with
    | nil => simp [expectTail] at h
    | cons s rest =>
      simp only [expectTail] at h
      by_cases hn : s.num = n
      · rw [if_pos hn] at h
        cases k with
        | zero => simp [hn]
        | succ k =>
          have := ih (i + 1) rest r h k (by simpa using hk)
          simpa using this
      · rw [if_neg hn] at h
        cases h

lemma expectTail_congr :
    ∀ (ns : List Nat) (i : Nat) (l₁ l₂ : List SectionInfo),
      l₁.map SectionInfo.num = l₂.map SectionInfo.num →
      (expectTail i ns l₁ = .ok (l₁.drop ns.length) ∧
        expectTail i ns l₂ = .ok (l₂.drop ns.length)) ∨
      (∃ e, expectTail i ns l₁ = .error e ∧ expectTail i ns l₂ = .error e) := by
  intro ns
  induction ns with
  | nil =>
    intro i l₁ l₂ _
    left
    exact ⟨rfl, rfl⟩
  | cons n ns ih =>
    intro i l₁ l₂ hmap
    cases l₁ with
    | nil =>
      cases l₂ with
      | nil => right; exact ⟨.GRIB2IterationSuddenlyFinished, rfl, rfl⟩
      | cons s₂ r₂ => simp at hmap
    | cons s₁ r₁ =>
      cases l₂ with
      | nil => simp at hmap
      | cons s₂ r₂ =>
        simp only [List.map_cons, List.cons.injEq] at hmap
        obtain ⟨hnum, hrest⟩ := hmap
        by_cases hn : s₁.num = n
        · have hn₂ : s₂.num = n := by rw [← hnum]; exact hn
          have := ih (i + 1) r₁ r₂ hrest
          rcases this with ⟨h₁, h₂⟩ | ⟨e, h₁, h₂⟩
          · left
            constructor
            · simpa [expectTail, hn] using h₁
            · simpa [expectTail, hn₂] using h₂
          · right
            refine ⟨e, ?_, ?_⟩
            · simpa [expectTail, hn] using h₁
            · simpa [expectTail, hn₂] using h₂
        · have hn₂ : ¬ s₂.num = n := by rw [← hnum]; exact hn
          right
          refine ⟨.GRIB2WrongIteration i, ?_, ?_⟩
          · simp [expectTail, hn]
          · simp [expectTail, hn₂]

lemma submLoop_congr :
    ∀ (fuel total : Nat) (l₁ l₂ : List SectionInfo) (i : Nat)
      (d2 d3 : Option Nat),
      l₁.map SectionInfo.num = l₂.map SectionInfo.num →
      submLoop total fuel l₁ i d2 d3 = submLoop total fuel l₂ i d2 d3 := by
  intro fuel
  induction fuel with
  | zero => intro total l₁ l₂ i d2 d3 _; rfl
  | succ fuel ih =>
    intro total l₁ l₂ i d2 d3 hmap
    cases l₁ with
    | nil =>
      cases l₂ with
      | nil => rfl
      | cons s₂ r₂ => simp at hmap
    | cons s₁ r₁ =>
      cases l₂ with
      | nil => simp at hmap
      | cons s₂ r₂ =>
        simp only [List.map_cons, List.cons.injEq] at hmap
        obtain ⟨hnum, hrest⟩ := hmap
        have hdrop : ∀ k : Nat,
            (r₁.drop k).map SectionInfo.num = (r₂.drop k).map SectionInfo.num := by
          intro k
          rw [List.map_drop, List.map_drop, hrest]
        simp only [submLoop, hnum]
        by_cases h2 : s₂.num = 2
        · rcases expectTail_congr [3, 4, 5, 6, 7] (i + 1) r₁ r₂ hrest with
            ⟨e₁, e₂⟩ | ⟨e, e₁, e₂⟩
          · have f₁ : expectTail (i + 1) [3, 4, 5, 6, 7] r₁ = .ok (r₁.drop 5) := by
              simpa using e₁
            have f₂ : expectTail (i + 1) [3, 4, 5, 6, 7] r₂ = .ok (r₂.drop 5) := by
              simpa using e₂
            have hrec := ih total (r₁.drop 5) (r₂.drop 5) (i + 6) (some i)
              (some (i + 1)) (hdrop 5)
            simp [h2, f₁, f₂, hrec]
          · simp [h2, e₁, e₂]
        · by_cases h3 : s₂.num = 3
          · rcases expectTail_congr [4, 5, 6, 7] (i + 1) r₁ r₂ hrest with
              ⟨e₁, e₂⟩ | ⟨e, e₁, e₂⟩
            · have f₁ : expectTail (i + 1) [4, 5, 6, 7] r₁ = .ok (r₁.drop 4) := by
                simpa using e₁
              have f₂ : expectTail (i + 1) [4, 5, 6, 7] r₂ = .ok (r₂.drop 4) := by
                simpa using e₂
              have hrec := ih total (r₁.drop 4) (r₂.drop 4) (i + 5) d2 (some i)
                (hdrop 4)
              simp [h2, h3, f₁, f₂, hrec]
            · simp [h2, h3, e₁, e₂]
          · by_cases h4 : s₂.num = 4
            · by_cases hd3 : d3 = none
              · simp [h2, h3, h4, hd3]
              · rcases expectTail_congr [5, 6, 7] (i + 1) r₁ r₂ hrest with
                  ⟨e₁, e₂⟩ | ⟨e, e₁, e₂⟩
                · have f₁ : expectTail (i + 1) [5, 6, 7] r₁ = .ok (r₁.drop 3) := by
                    simpa using e₁
                  have f₂ : expectTail (i + 1) [5, 6, 7] r₂ = .ok (r₂.drop 3) := by
                    simpa using e₂
                  have hrec := ih total (r₁.drop 3) (r₂.drop 3) (i + 4) d2 d3
                    (hdrop 3)
                  simp [h2, h3, h4, hd3, f₁, f₂, hrec]
                · simp [h2, h3, h4, hd3, e₁, e₂]
            · simp [h2, h3, h4]

lemma submLoop_ok_good (sects : List SectionInfo) :
    ∀ (fuel total i : Nat) (d2 d3 : Option Nat) (subs : List SubMessage),
      submLoop total fuel (sects.drop i) i d2 d3 = .ok subs →
      (∀ j, d2 = some j → j < i ∧ numAt sects j = some 2) →
      (∀ j, d3 = some j → j < i ∧ numAt sects j = some 3) →
      (∀ j2 j3, d2 = some j2 → d3 = some j3 → j2 < j3) →
      ∀ m ∈ subs, GoodSub sects m := by
  intro fuel
  induction fuel with
  | zero =>
    intro total i d2 d3 subs h _ _ _
    cases h
  | succ fuel ih =>
    intro total i d2 d3 subs h hd2 hd3 hpair
    rcases hdrop : sects.drop i with _ | ⟨s, rest⟩
    · rw [hdrop] at h; cases h
    · rw [hdrop] at h
      obtain ⟨hget, hdrop1⟩ := drop_cons_get hdrop
      simp only [submLoop] at h
      by_cases h2 : s.num = 2
      · rw [if_pos h2] at h
        rcases het : expectTail (i + 1) [3, 4, 5, 6, 7] rest with e | r
        · rw [het] at h
          exact Except.noConfusion h
        · simp only [het] at h
          have hr : r = sects.drop (i + 6) := by
            have h5 := expectTail_ok_drop [3, 4, 5, 6, 7] (i + 1) rest r het
            rw [h5, ← hdrop1, List.drop_drop]
            norm_num
          have hk : ∀ k, k < 5 →
              numAt sects (i + 1 + k) = [3, 4, 5, 6, 7].get? k := by
            intro k hklt
            have hg := expectTail_ok_num [3, 4, 5, 6, 7] (i + 1) rest r het k
              (by simpa using hklt)
            rw [numAt, ← List.get?_drop, hdrop1]
            exact hg
          have n2s : numAt sects i = some 2 := by
            rw [numAt, hget]; simp [h2]
          have n3 : numAt sects (i + 1) = some 3 := by simpa using hk 0 (by omega)
          have n4 : numAt sects (i + 2) = some 4 := by simpa using hk 1 (by omega)
          have n5 : numAt sects (i + 3) = some 5 := by simpa using hk 2 (by omega)
          have n6 : numAt sects (i + 4) = some 6 := by simpa using hk 3 (by omega)
          have n7 : numAt sects (i + 5) = some 7 := by simpa using hk 4 (by omega)
          rcases hrec : submLoop total fuel r (i + 6) (some i) (some (i + 1))
            with e | subs'
          · rw [hrec] at h
            exact Except.noConfusion h
          · rw [hrec] at h
            simp only [Except.ok.injEq] at h
            subst h
            intro m hm
            rcases List.mem_cons.mp hm with hm | hm
            · subst hm
              exact ⟨i + 1, i + 2, i + 3, i + 4, i + 5, rfl, rfl, rfl, rfl, rfl,
                n3, n4, n5, n6, n7, by omega, by omega, by omega, by omega,
                Or.inr ⟨i, rfl, n2s, by omega⟩⟩
            · rw [hr] at hrec
              refine ih total (i + 6) (some i) (some (i + 1)) subs' hrec
                ?_ ?_ ?_ m hm
              · intro j hj; cases hj; exact ⟨by omega, n2s⟩
              · intro j hj; cases hj; exact ⟨by omega, n3⟩
              · intro j2 j3 hj2 hj3; cases hj2; cases hj3; omega
      · rw [if_neg h2] at h
        by_cases h3 : s.num = 3
        · rw [if_pos h3] at h
          rcases het : expectTail (i + 1) [4, 5, 6, 7] rest with e | r
          · rw [het] at h
            exact Except.noConfusion h
          · simp only [het] at h
            have hr : r = sects.drop (i + 5) := by
              have h5 := expectTail_ok_drop [4, 5, 6, 7] (i + 1) rest r het
              rw [h5, ← hdrop1, List.drop_drop]
              norm_num
            have hk : ∀ k, k < 4 →
                numAt sects (i + 1 + k) = [4, 5, 6, 7].get? k := by
              intro k hklt
              have hg := expectTail_ok_num [4, 5, 6, 7] (i + 1) rest r het k
                (by simpa using hklt)
              rw [numAt, ← List.get?_drop, hdrop1]
              exact hg
            have n3s : numAt sects i = some 3 := by
              rw [numAt, hget]; simp [h3]
            have n4 : numAt sects (i + 1) = some 4 := by
              simpa using hk 0 (by omega)
            have n5 : numAt sects (i + 2) = some 5 := by
              simpa using hk 1 (by omega)
            have n6 : numAt sects (i + 3) = some 6 := by
              simpa using hk 2 (by omega)
            have n7 : numAt sects (i + 4) = some 7 := by
              simpa using hk 3 (by omega)
            rcases hrec : submLoop total fuel r (i + 5) d2 (some i)
              with e | subs'
            · rw [hrec] at h
              exact Except.noConfusion h
            · rw [hrec] at h
              simp only [Except.ok.injEq] at h
              subst h
              intro m hm
              rcases List.mem_cons.mp hm with hm | hm
              · subst hm
                refine ⟨i, i + 1, i + 2, i + 3, i + 4, rfl, rfl, rfl, rfl, rfl,
                  n3s, n4, n5, n6, n7, by omega, by omega, by omega,
                  by omega, ?_⟩
                rcases hc2 : d2 with _ | j2
                · exact Or.inl rfl
                · obtain ⟨hj2lt, hj2num⟩ := hd2 j2 hc2
                  exact Or.inr ⟨j2, rfl, hj2num, hj2lt⟩
              · rw [hr] at hrec
                refine ih total (i + 5) d2 (some i) subs' hrec ?_ ?_ ?_ m hm
                · intro j hj
                  obtain ⟨hlt, hnum⟩ := hd2 j hj
                  exact ⟨by omega, hnum⟩
                · intro j hj; cases hj; exact ⟨by omega, n3s⟩
                · intro j2 j3 hj2 hj3
                  cases hj3
                  exact (hd2 j2 hj2).1
        · rw [if_neg h3] at h
          by_cases h4 : s.num = 4
          · rw [if_pos h4] at h
            rcases hc3 : d3 with _ | j3
            · rw [hc3] at h
              simp at h
            · rw [hc3] at h
              rw [if_neg (by simp)] at h
              rcases het : expectTail (i + 1) [5, 6, 7] rest with e | r
              · rw [het] at h
                exact Except.noConfusion h
              · simp only [het] at h
                have hr : r = sects.drop (i + 4) := by
                  have h5 := expectTail_ok_drop [5, 6, 7] (i + 1) rest r het
                  rw [h5, ← hdrop1, List.drop_drop]
                  norm_num
                have hk : ∀ k, k < 3 →
                    numAt sects (i + 1 + k) = [5, 6, 7].get? k := by
                  intro k hklt
                  have hg := expectTail_ok_num [5, 6, 7] (i + 1) rest r het k
                    (by simpa using hklt)
                  rw [numAt, ← List.get?_drop, hdrop1]
                  exact hg
                have n4s : numAt sects i = some 4 := by
                  rw [numAt, hget]; simp [h4]
                have n5 : numAt sects (i + 1) = some 5 := by
                  simpa using hk 0 (by omega)
                have n6 : numAt sects (i + 2) = some 6 := by
                  simpa using hk 1 (by omega)
                have n7 : numAt sects (i + 3) = some 7 := by
                  simpa using hk 2 (by omega)
                obtain ⟨hj3lt, hj3num⟩ := hd3 j3 hc3
                rcases hrec : submLoop total fuel r (i + 4) d2 (some j3)
                  with e | subs'
                · rw [hrec] at h
                  exact Except.noConfusion h
                · rw [hrec] at h
                  simp only [Except.ok.injEq] at h
                  subst h
                  intro m hm
                  rcases List.mem_cons.mp hm with hm | hm
                  · subst hm
                    refine ⟨j3, i, i + 1, i + 2, i + 3, rfl, rfl, rfl, rfl,
                      rfl, hj3num, n4s, n5, n6, n7, hj3lt, by omega, by omega,
                      by omega, ?_⟩
                    rcases hc2 : d2 with _ | j2
                    · exact Or.inl rfl
                    · obtain ⟨hj2lt, hj2num⟩ := hd2 j2 hc2
                      exact Or.inr ⟨j2, rfl, hj2num, hpair j2 j3 hc2 hc3⟩
                  · rw [hr] at hrec
                    refine ih total (i + 4) d2 (some j3) subs' hrec
                      ?_ ?_ ?_ m hm
                    · intro j hj
                      obtain ⟨hlt, hnum⟩ := hd2 j hj
                      exact ⟨by omega, hnum⟩
                    · intro j hj; cases hj; exact ⟨by omega, hj3num⟩
                    · intro j2 j3' hj2 hj3'
                      cases hj3'
                      exact hpair j2 j3 hj2 hc3
          · rw [if_neg h4] at h
            by_cases h8 : s.num = 8
            · rw [if_pos h8] at h
              rcases hc3 : d3 with _ | j3
              · rw [hc3] at h
                simp at h
              · rw [hc3] at h
                rw [if_neg (by simp)] at h
                by_cases hlast : i < total - 1
                · rw [if_pos hlast] at h
                  cases h
                · rw [if_neg hlast] at h
                  cases h
                  intro m hm
                  simp at hm
            · rw [if_neg h8] at h
              cases h

lemma scanLoop_sum :
    ∀ (fuel whole : Nat) (b : List Nat) (rest_size : Nat)
      (acc sects : List SectionInfo),
      scanLoop whole fuel b rest_size acc = .ok sects →
      sumSizes sects = sumSizes acc + rest_size := by
  intro fuel
  induction fuel with
  | zero => intro whole b rest_size acc sects h; cases h
  | succ fuel ih =>
    intro whole b rest_size acc sects h
    simp only [scanLoop] at h
    by_cases h4 : rest_size = 4
    · subst h4
      rcases h8 : unpack_sect8 b with e | b'
      · simp [h8] at h
      · simp [h8] at h
        rw [← h]
        simp [sumSizes]
    · rw [if_neg h4] at h
      rcases hh : unpack_sect_header b with e | p
      · simp [hh] at h
      · obtain ⟨si, b'⟩ := p
        simp only [hh] at h
        rcases hb : read_body si.num si.size b' with e | q
        · simp [hb] at h
        · obtain ⟨body, b''⟩ := q
          simp only [hb] at h
          rcases hs : subUsize rest_size si.size with e | rest'
          · simp [hs] at h
          · simp only [hs] at h
            have hle : si.size ≤ rest_size ∧ rest' = rest_size - si.size := by
              simp only [subUsize] at hs
              by_cases hle : si.size ≤ rest_size
              · rw [if_pos hle] at hs; cases hs; exact ⟨hle, rfl⟩
              · rw [if_neg hle] at hs; cases hs
            have := ih whole b'' rest'
              (acc ++ [⟨si.num, whole - rest_size, si.size, some body⟩]) sects h
            rw [this]
            simp only [sumSizes, List.map_append, List.sum_append]
            simp only [List.map_cons, List.map_nil, List.sum_cons,
              List.sum_nil]
            omega

end GribParser

namespace GribParser

lemma offset_lt_of_pairwise {sects : List SectionInfo}
    (hp : (sects.map SectionInfo.offset).Pairwise (· < ·))
    {a b : Nat} {sa sb : SectionInfo} (hab : a < b)
    (ha : sects.get? a = some sa) (hb : sects.get? b = some sb) :
    sa.offset < sb.offset := by
  rw [List.get?_eq_getElem?] at ha hb
  obtain ⟨hal, ha'⟩ := List.getElem?_eq_some.mp ha
  obtain ⟨hbl, hb'⟩ := List.getElem?_eq_some.mp hb
  have hmap := List.pairwise_iff_getElem.mp hp a b
    (by simpa using hal) (by simpa using hbl) hab
  simpa [ha', hb'] using hmap

/-- C3: on the descriptor sequence of the sample file in the source's
`read_normal` test, the resolver produces 7 submessages, but the first one's
§2 reference is `None` (the sample contains no §2 section), contradicting the
claim that the first submessage has an explicit §2. -/
theorem C3_sample_counterexample :
    get_submessages sampleSects = .ok sampleSubs ∧
    sampleSubs.length = 7 ∧
    (sampleSubs.get? 0).map SubMessage.section2 = some none :=
  ⟨rfl, rfl, rfl⟩

/-- C3 (amended): the sample descriptor sequence (section numbers
`[1,3,4,5,6,7]`, six repetitions of `[4,5,6,7]`, and a final `[8]`, with the
offsets of the `read_normal` test) produces exactly 7 submessages; no
submessage has a §2, the first's §3 is explicit and the other six inherit
it. -/
theorem C3_sample_submessages :
    get_submessages sampleSects = .ok sampleSubs ∧
    sampleSubs.length = 7 ∧
    sampleSubs.map SubMessage.section2 = List.replicate 7 none ∧
    sampleSubs.map SubMessage.section3 = List.replicate 7 (some 1) ∧
    sampleSects.map SectionInfo.offset =
      [16, 37, 109, 143, 166, 172, 1563, 1597, 1620, 1626, 3025, 3059, 3082,
       3088, 4492, 4526, 4549, 4555, 5950, 5984, 6007, 6013, 7408, 7442, 7465,
       7471, 8868, 8902, 8925, 8931, 10317] :=
  ⟨rfl, rfl, rfl, rfl, rfl⟩

/-- C6: the sum of the sizes of the descriptors produced by `scan` is the
envelope-declared total message length *minus* the 16-byte section 0, not the
declared length itself: on the well-formed 41-byte message `ex41` the
descriptor sizes sum to 25 while the declared length is 41. -/
theorem C6_sum_sizes_counterexample :
    scan ex41 = .ok
      [⟨1, 16, 21, some (.Section1 ⟨0, 0, 0, 0, 0, ⟨0, 0, 0, 0, 0, 0⟩, 0, 0⟩)⟩,
       ⟨8, 37, 4, none⟩] ∧
    sumSizes
      [⟨1, 16, 21, some (.Section1 ⟨0, 0, 0, 0, 0, ⟨0, 0, 0, 0, 0, 0⟩, 0, 0⟩)⟩,
       ⟨8, 37, 4, none⟩] = 25 ∧
    readBE ex41 8 8 = 41 ∧
    (25 : Nat) ≠ 41 :=
  ⟨rfl, rfl, rfl, by decide⟩

/-- C6 (amended): for every byte stream on which the scanner succeeds, the sum
of the sizes of the section descriptors it produces plus the 16 bytes of the
section 0 envelope equals the total message length declared in the 64-bit
big-endian field of the envelope. -/
theorem C6_sum_sizes :
    ∀ (b : List Nat) (sects : List SectionInfo) (whole : Nat) (rest : List Nat),
      scan b = .ok sects → unpack_sect0 b = .ok (whole, rest) →
      sumSizes sects + 16 = whole := by
  intro b sects whole rest hscan h0
  simp only [scan, h0] at hscan
  rcases hsub : subUsize whole 16 with e | r0
  · rw [hsub] at hscan
    exact Except.noConfusion hscan
  · simp only [hsub] at hscan
    have h16 : 16 ≤ whole ∧ r0 = whole - 16 := by
      simp only [subUsize] at hsub
      by_cases hle : 16 ≤ whole
      · rw [if_pos hle] at hsub; cases hsub; exact ⟨hle, rfl⟩
      · rw [if_neg hle] at hsub; cases hsub
    have hsum := scanLoop_sum (r0 + 1) whole rest r0 [] sects hscan
    have hnil : sumSizes ([] : List SectionInfo) = 0 := rfl
    omega

/-- Witness for C6: on the concrete message `ex41` (declared length 41) the
produced descriptor sizes sum to 25 = 41 - 16. -/
theorem C6_sum_sizes_witness :
    sumSizes
      [⟨1, 16, 21, some (.Section1 ⟨0, 0, 0, 0, 0, ⟨0, 0, 0, 0, 0, 0⟩, 0, 0⟩)⟩,
       ⟨8, 37, 4, none⟩] + 16 = 41 :=
  C6_sum_sizes ex41
    [⟨1, 16, 21, some (.Section1 ⟨0, 0, 0, 0, 0, ⟨0, 0, 0, 0, 0, 0⟩, 0, 0⟩)⟩,
     ⟨8, 37, 4, none⟩] 41 (ex41.drop 16) rfl rfl

/-- C10: the scanner's size arithmetic panics (checked-build unsigned
underflow) instead of returning a `ParseError` when the declared message
length is below 16, when a declared section size is below the 5-byte header,
or when a section size overshoots the remaining budget; `read_body` panics on
a section size below 5. -/
theorem C10_scan_panics :
    scan exDeclaredTooSmall = .error .panic ∧
    scan exSectSizeTooSmall = .error .panic ∧
    scan exOvershoot = .error .panic ∧
    read_body 1 3 [] = .error .panic :=
  ⟨rfl, rfl, rfl, rfl⟩

end GribParser

/-- C4: the simple-packing decoder maps each raw integer `X` to
`(R + X * 2^E) * 10^(-D)`, one output per input; in particular `R = 1.5`,
`E = 1`, `D = 1`, `X = [0, 1]` yields `[0.15, 0.35]` (exactly `3/20` and
`7/20` in the rational model of the floating-point arithmetic). -/
theorem C4_simple_packing :
    (∀ (xs : List Int) (r : ℚ) (e d : Int),
        (simplePackingDecode xs r e d).length = xs.length) ∧
    (∀ (xs : List Int) (r : ℚ) (e d : Int) (k : Nat) (x : Int),
        xs.get? k = some x →
        (simplePackingDecode xs r e d).get? k =
          some ((r + (x : ℚ) * (2 : ℚ) ^ e) * (10 : ℚ) ^ (-d))) ∧
    simplePackingDecode [0, 1] (3 / 2) 1 1 = [3 / 20, 7 / 20] := by
  refine ⟨?_, ?_, ?_⟩
  · intro xs r e d
    simp only [simplePackingDecode, List.length_map]
  · intro xs r e d k x h
    simp only [simplePackingDecode]
    rw [List.get?_map, h]
    rfl
  · norm_num [simplePackingDecode]

/-- Witness for C4: concrete instances of the length-preservation and
per-element formula. -/
theorem C4_simple_packing_witness :
    (simplePackingDecode [(5 : Int)] 0 0 0).length = [(5 : Int)].length ∧
    (simplePackingDecode [0, 1] (3 / 2) 1 1).get? 1 =
      some (((3 / 2 : ℚ) + ((1 : Int) : ℚ) * (2 : ℚ) ^ (1 : Int)) *
        (10 : ℚ) ^ (-(1 : Int))) :=
  ⟨C4_simple_packing.1 [(5 : Int)] 0 0 0,
   C4_simple_packing.2.1 [0, 1] (3 / 2) 1 1 1 1 rfl⟩

/-- C5: sign-magnitude decoding of a 16-bit field takes the high bit as sign
and the low 15 bits as magnitude; `0x8001` decodes to `-1`, and both `0x0000`
and `0x8000` decode to `0`. -/
theorem C5_sign_magnitude :
    (∀ m : Nat, m < 32768 →
        as_grib_int m = (m : Int) ∧ as_grib_int (32768 + m) = -(m : Int)) ∧
    as_grib_int 0x8001 = -1 ∧ as_grib_int 0x0000 = 0 ∧
    as_grib_int 0x8000 = 0 := by
  refine ⟨?_, by decide, by decide, by decide⟩
  intro m hm
  constructor
  · simp [as_grib_int, hm]
  · have h1 : ¬ (32768 + m < 32768) := by omega
    simp [as_grib_int, h1, Nat.add_mod_left, Nat.mod_eq_of_lt hm]

/-- Witness for C5: the sign-magnitude rule instantiated at magnitude 5. -/
theorem C5_sign_magnitude_witness :
    as_grib_int 5 = ((5 : Nat) : Int) ∧
    as_grib_int (32768 + 5) = -((5 : Nat) : Int) :=
  C5_sign_magnitude.1 5 (by decide)

namespace GribParser

/-- C1: for every state of the resolver loop that succeeds, a fresh §2 starts
a group whose emitted submessage references all six just-consumed sections; a
fresh §3 emits a submessage inheriting the carried §2 default (the most
recent §2, `none` if none has occurred); a fresh §4 emits a submessage
inheriting both carried defaults. In particular the sequence
`[1,2,3,4,5,6,7,4,5,6,7,8]` resolves to exactly two submessages whose second
inherits the first's §2 and §3 references (indices 1 and 2). -/
theorem C1_resolver_defaults :
    (∀ (total fuel i : Nat) (d2 d3 : Option Nat) (s : SectionInfo)
        (rest : List SectionInfo) (subs : List SubMessage),
        submLoop total (fuel + 1) (s :: rest) i d2 d3 = .ok subs →
        (s.num = 2 → ∃ tail, subs =
          ⟨some i, some (i + 1), some (i + 2), some (i + 3), some (i + 4),
            some (i + 5)⟩ :: tail) ∧
        (s.num = 3 → ∃ tail, subs =
          ⟨d2, some i, some (i + 1), some (i + 2), some (i + 3),
            some (i + 4)⟩ :: tail) ∧
        (s.num = 4 → ∃ tail, subs =
          ⟨d2, d3, some i, some (i + 1), some (i + 2),
            some (i + 3)⟩ :: tail)) ∧
    get_submessages (mkSects [1, 2, 3, 4, 5, 6, 7, 4, 5, 6, 7, 8]) =
      .ok [⟨some 1, some 2, some 3, some 4, some 5, some 6⟩,
           ⟨some 1, some 2, some 7, some 8, some 9, some 10⟩] := by
  refine ⟨?_, rfl⟩
  intro total fuel i d2 d3 s rest subs hok
  refine ⟨?_, ?_, ?_⟩
  · intro hnum
    simp only [submLoop] at hok
    rw [if_pos hnum] at hok
    rcases het : expectTail (i + 1) [3, 4, 5, 6, 7] rest with e | r
    · rw [het] at hok
      exact Except.noConfusion hok
    · simp only [het] at hok
      rcases hrec : submLoop total fuel r (i + 6) (some i) (some (i + 1))
        with e | subs'
      · rw [hrec] at hok
        exact Except.noConfusion hok
      · rw [hrec] at hok
        simp only [Except.ok.injEq] at hok
        exact ⟨subs', hok.symm⟩
  · intro hnum
    simp only [submLoop] at hok
    rw [if_neg (by simp [hnum]), if_pos hnum] at hok
    rcases het : expectTail (i + 1) [4, 5, 6, 7] rest with e | r
    · rw [het] at hok
      exact Except.noConfusion hok
    · simp only [het] at hok
      rcases hrec : submLoop total fuel r (i + 5) d2 (some i) with e | subs'
      · rw [hrec] at hok
        exact Except.noConfusion hok
      · rw [hrec] at hok
        simp only [Except.ok.injEq] at hok
        exact ⟨subs', hok.symm⟩
  · intro hnum
    simp only [submLoop] at hok
    rw [if_neg (by simp [hnum]), if_neg (by simp [hnum]), if_pos hnum] at hok
    rcases d3 with _ | j3
    · rw [if_pos rfl] at hok
      exact Except.noConfusion hok
    · rw [if_neg (by simp)] at hok
      rcases het : expectTail (i + 1) [5, 6, 7] rest with e | r
      · rw [het] at hok
        exact Except.noConfusion hok
      · simp only [het] at hok
        rcases hrec : submLoop total fuel r (i + 4) d2 (some j3) with e | subs'
        · rw [hrec] at hok
          exact Except.noConfusion hok
        · rw [hrec] at hok
          simp only [Except.ok.injEq] at hok
          exact ⟨subs', hok.symm⟩

/-- Witness for C1: the three one-step rules instantiated on the concrete
loop states reached from `[1,2,3,4,5,6,7,8]`, `[1,3,4,5,6,7,8]` and
`[1,2,3,4,5,6,7,4,5,6,7,8]`. -/
theorem C1_resolver_defaults_witness :
    (∃ tail, ([⟨some 1, some 2, some 3, some 4, some 5, some 6⟩] :
        List SubMessage) =
      ⟨some 1, some 2, some 3, some 4, some 5, some 6⟩ :: tail) ∧
    (∃ tail, ([⟨none, some 1, some 2, some 3, some 4, some 5⟩] :
        List SubMessage) =
      ⟨none, some 1, some 2, some 3, some 4, some 5⟩ :: tail) ∧
    (∃ tail, ([⟨some 1, some 2, some 7, some 8, some 9, some 10⟩] :
        List SubMessage) =
      ⟨some 1, some 2, some 7, some 8, some 9, some 10⟩ :: tail) :=
  ⟨(C1_resolver_defaults.1 8 7 1 none none ⟨2, 0, 0, none⟩
      (mkSects [3, 4, 5, 6, 7, 8])
      [⟨some 1, some 2, some 3, some 4, some 5, some 6⟩] rfl).1 rfl,
   (C1_resolver_defaults.1 7 6 1 none none ⟨3, 0, 0, none⟩
      (mkSects [4, 5, 6, 7, 8])
      [⟨none, some 1, some 2, some 3, some 4, some 5⟩] rfl).2.1 rfl,
   (C1_resolver_defaults.1 12 5 7 (some 1) (some 2) ⟨4, 0, 0, none⟩
      (mkSects [5, 6, 7, 8])
      [⟨some 1, some 2, some 7, some 8, some 9, some 10⟩] rfl).2.2 rfl⟩

/-- C2: the resolver fails with `NoGridDefinition(i)` on a §4 or §8 at
position `i` while no §3 default exists; with `GRIB2WrongIteration(i)`
(the spec's `WrongIteration`) on a descriptor whose section number is not
expected at that point, including a §8 that is not the last descriptor; and
with `GRIB2IterationSuddenlyFinished` (the spec's
`IterationEndedUnexpectedly`) when the sequence is exhausted while more
sections are expected. Concretely, `[1,4,5,6,7,8]` and `[1,8]` both yield
`NoGridDefinition(1)`. -/
theorem C2_resolver_errors :
    (∀ (total fuel i : Nat) (d2 : Option Nat) (s : SectionInfo)
        (rest : List SectionInfo),
        s.num = 4 ∨ s.num = 8 →
        submLoop total (fuel + 1) (s :: rest) i d2 none =
          .error (.NoGridDefinition i)) ∧
    (∀ (total fuel i : Nat) (d2 d3 : Option Nat) (s : SectionInfo)
        (rest : List SectionInfo),
        s.num ≠ 2 → s.num ≠ 3 → s.num ≠ 4 → s.num ≠ 8 →
        submLoop total (fuel + 1) (s :: rest) i d2 d3 =
          .error (.GRIB2WrongIteration i)) ∧
    (∀ (total fuel i j3 : Nat) (d2 : Option Nat) (s : SectionInfo)
        (rest : List SectionInfo),
        s.num = 8 → i < total - 1 →
        submLoop total (fuel + 1) (s :: rest) i d2 (some j3) =
          .error (.GRIB2WrongIteration i)) ∧
    (∀ (i n : Nat) (ns : List Nat) (s : SectionInfo)
        (rest : List SectionInfo),
        s.num ≠ n →
        expectTail i (n :: ns) (s :: rest) =
          .error (.GRIB2WrongIteration i)) ∧
    (∀ (total fuel i : Nat) (d2 d3 : Option Nat),
        submLoop total (fuel + 1) [] i d2 d3 =
          .error .GRIB2IterationSuddenlyFinished) ∧
    (∀ (i n : Nat) (ns : List Nat),
        expectTail i (n :: ns) [] =
          .error .GRIB2IterationSuddenlyFinished) ∧
    get_submessages (mkSects [1, 4, 5, 6, 7, 8]) =
      .error (.NoGridDefinition 1) ∧
    get_submessages (mkSects [1, 8]) = .error (.NoGridDefinition 1) ∧
    get_submessages (mkSects [1, 2, 4, 3, 5, 6, 7, 8]) =
      .error (.GRIB2WrongIteration 2) ∧
    get_submessages (mkSects [1, 3, 4, 5, 6, 7, 8, 8]) =
      .error (.GRIB2WrongIteration 6) ∧
    get_submessages (mkSects [1, 2, 3, 4, 5, 6, 7, 4, 5]) =
      .error .GRIB2IterationSuddenlyFinished := by
  refine ⟨?_, ?_, ?_, ?_, ?_, ?_, rfl, rfl, rfl, rfl, rfl⟩
  · intro total fuel i d2 s rest hnum
    rcases hnum with hnum | hnum <;> simp [submLoop, hnum]
  · intro total fuel i d2 d3 s rest h2 h3 h4 h8
    simp [submLoop, h2, h3, h4, h8]
  · intro total fuel i j3 d2 s rest hnum hlast
    simp [submLoop, hnum, hlast]
  · intro i n ns s rest hne
    simp [expectTail, hne]
  · intro total fuel i d2 d3
    simp [submLoop]
  · intro i n ns
    simp [expectTail]

/-- Witness for C2: the error rules instantiated on concrete loop states. -/
theorem C2_resolver_errors_witness :
    submLoop 1 1 [⟨4, 0, 0, none⟩] 1 none none =
      .error (.NoGridDefinition 1) ∧
    submLoop 1 1 [⟨9, 0, 0, none⟩] 1 none none =
      .error (.GRIB2WrongIteration 1) ∧
    submLoop 3 1 [⟨8, 0, 0, none⟩] 1 none (some 0) =
      .error (.GRIB2WrongIteration 1) ∧
    expectTail 5 [3] [⟨4, 0, 0, none⟩] = .error (.GRIB2WrongIteration 5) ∧
    submLoop 1 1 [] 1 none none = .error .GRIB2IterationSuddenlyFinished ∧
    expectTail 5 [3] [] = .error .GRIB2IterationSuddenlyFinished :=
  ⟨C2_resolver_errors.1 1 0 1 none ⟨4, 0, 0, none⟩ [] (Or.inl rfl),
   C2_resolver_errors.2.1 1 0 1 none none ⟨9, 0, 0, none⟩ []
     (by decide) (by decide) (by decide) (by decide),
   C2_resolver_errors.2.2.1 3 0 1 0 none ⟨8, 0, 0, none⟩ [] rfl (by decide),
   C2_resolver_errors.2.2.2.1 5 3 [] ⟨4, 0, 0, none⟩ [] (by decide),
   C2_resolver_errors.2.2.2.2.1 1 0 1 none none,
   C2_resolver_errors.2.2.2.2.2.1 5 3 []⟩

/-- C7: the resolver accepts descriptor sequences regardless of their offsets
(it never inspects them), so the referenced offsets of an emitted submessage
need not be monotonically increasing: the accepted sequence `exC7` yields a
submessage whose §3 descriptor has offset 10 while its §4 descriptor has
offset 9. -/
theorem C7_offsets_counterexample :
    get_submessages exC7 =
      .ok [⟨none, some 1, some 2, some 3, some 4, some 5⟩] ∧
    exC7.get? 1 = some ⟨3, 10, 0, none⟩ ∧
    exC7.get? 2 = some ⟨4, 9, 0, none⟩ ∧
    ¬ ((10 : Nat) < 9) :=
  ⟨rfl, rfl, rfl, by decide⟩

/-- C7 (amended): for every submessage produced by the resolver from any
accepted descriptor sequence, the referenced sections' numbers are exactly
3,4,5,6,7 with an optional 2 and the references point at strictly increasing
positions — unconditionally; and whenever the descriptor offsets strictly
increase with position (as the scanner guarantees), the referenced offsets
are monotonically increasing in the order (2?,3,4,5,6,7). -/
theorem C7_submessage_sections :
    ∀ (sects : List SectionInfo) (subs : List SubMessage),
      get_submessages sects = .ok subs →
      ∀ m ∈ subs,
        ∃ (i3 i4 i5 i6 i7 : Nat) (s3 s4 s5 s6 s7 : SectionInfo),
          m.section3 = some i3 ∧ m.section4 = some i4 ∧
          m.section5 = some i5 ∧ m.section6 = some i6 ∧
          m.section7 = some i7 ∧
          sects.get? i3 = some s3 ∧ sects.get? i4 = some s4 ∧
          sects.get? i5 = some s5 ∧ sects.get? i6 = some s6 ∧
          sects.get? i7 = some s7 ∧
          s3.num = 3 ∧ s4.num = 4 ∧ s5.num = 5 ∧ s6.num = 6 ∧ s7.num = 7 ∧
          i3 < i4 ∧ i4 < i5 ∧ i5 < i6 ∧ i6 < i7 ∧
          (m.section2 = none ∨
            ∃ (i2 : Nat) (s2 : SectionInfo), m.section2 = some i2 ∧
              sects.get? i2 = some s2 ∧ s2.num = 2 ∧ i2 < i3) ∧
          ((sects.map SectionInfo.offset).Pairwise (· < ·) →
            s3.offset < s4.offset ∧ s4.offset < s5.offset ∧
            s5.offset < s6.offset ∧ s6.offset < s7.offset ∧
            ∀ (i2 : Nat) (s2 : SectionInfo), m.section2 = some i2 →
              sects.get? i2 = some s2 → s2.offset < s3.offset) := by
  intro sects subs hok m hm
  cases sects with
  | nil => exact Except.noConfusion hok
  | cons s rest =>
    simp only [get_submessages] at hok
    by_cases h1 : s.num = 1
    · rw [if_pos h1] at hok
      have hgood := submLoop_ok_good (s :: rest) (s :: rest).length
        (s :: rest).length 1 none none subs hok
        (by intro j hj; cases hj) (by intro j hj; cases hj)
        (by intro j2 j3 hj2 hj3; cases hj2) m hm
      obtain ⟨i3, i4, i5, i6, i7, hs3, hs4, hs5, hs6, hs7, hn3, hn4, hn5,
        hn6, hn7, h34, h45, h56, h67, h2opt⟩ := hgood
      obtain ⟨s3, hget3, hnum3⟩ := Option.map_eq_some'.mp hn3
      obtain ⟨s4, hget4, hnum4⟩ := Option.map_eq_some'.mp hn4
      obtain ⟨s5, hget5, hnum5⟩ := Option.map_eq_some'.mp hn5
      obtain ⟨s6, hget6, hnum6⟩ := Option.map_eq_some'.mp hn6
      obtain ⟨s7, hget7, hnum7⟩ := Option.map_eq_some'.mp hn7
      refine ⟨i3, i4, i5, i6, i7, s3, s4, s5, s6, s7, hs3, hs4, hs5, hs6,
        hs7, hget3, hget4, hget5, hget6, hget7, hnum3, hnum4, hnum5, hnum6,
        hnum7, h34, h45, h56, h67, ?_, ?_⟩
      · rcases h2opt with h2opt | ⟨i2, hs2, hn2, hlt2⟩
        · exact Or.inl h2opt
        · obtain ⟨s2, hget2, hnum2⟩ := Option.map_eq_some'.mp hn2
          exact Or.inr ⟨i2, s2, hs2, hget2, hnum2, hlt2⟩
      · intro hp
        refine ⟨offset_lt_of_pairwise hp h34 hget3 hget4,
          offset_lt_of_pairwise hp h45 hget4 hget5,
          offset_lt_of_pairwise hp h56 hget5 hget6,
          offset_lt_of_pairwise hp h67 hget6 hget7, ?_⟩
        intro i2 s2 h2eq hget2
        rcases h2opt with h2none | ⟨i2', hs2, _hn2, hlt2⟩
        · rw [h2none] at h2eq
          exact Option.noConfusion h2eq
        · rw [hs2] at h2eq
          have hi2 : i2' = i2 := Option.some.inj h2eq
          subst hi2
          exact offset_lt_of_pairwise hp hlt2 hget2 hget3
    · rw [if_neg h1] at hok
      exact Except.noConfusion hok

/-- Witness for C7: the amended property instantiated on the accepted
sequence `exC7mono`, whose offsets strictly increase with position. -/
theorem C7_submessage_sections_witness :
    ∃ (i3 i4 i5 i6 i7 : Nat) (s3 s4 s5 s6 s7 : SectionInfo),
      (⟨none, some 1, some 2, some 3, some 4, some 5⟩ :
        SubMessage).section3 = some i3 ∧
      (⟨none, some 1, some 2, some 3, some 4, some 5⟩ :
        SubMessage).section4 = some i4 ∧
      (⟨none, some 1, some 2, some 3, some 4, some 5⟩ :
        SubMessage).section5 = some i5 ∧
      (⟨none, some 1, some 2, some 3, some 4, some 5⟩ :
        SubMessage).section6 = some i6 ∧
      (⟨none, some 1, some 2, some 3, some 4, some 5⟩ :
        SubMessage).section7 = some i7 ∧
      exC7mono.get? i3 = some s3 ∧ exC7mono.get? i4 = some s4 ∧
      exC7mono.get? i5 = some s5 ∧ exC7mono.get? i6 = some s6 ∧
      exC7mono.get? i7 = some s7 ∧
      s3.num = 3 ∧ s4.num = 4 ∧ s5.num = 5 ∧ s6.num = 6 ∧ s7.num = 7 ∧
      i3 < i4 ∧ i4 < i5 ∧ i5 < i6 ∧ i6 < i7 ∧
      ((⟨none, some 1, some 2, some 3, some 4, some 5⟩ :
          SubMessage).section2 = none ∨
        ∃ (i2 : Nat) (s2 : SectionInfo),
          (⟨none, some 1, some 2, some 3, some 4, some 5⟩ :
            SubMessage).section2 = some i2 ∧
          exC7mono.get? i2 = some s2 ∧ s2.num = 2 ∧ i2 < i3) ∧
      ((exC7mono.map SectionInfo.offset).Pairwise (· < ·) →
        s3.offset < s4.offset ∧ s4.offset < s5.offset ∧
        s5.offset < s6.offset ∧ s6.offset < s7.offset ∧
        ∀ (i2 : Nat) (s2 : SectionInfo),
          (⟨none, some 1, some 2, some 3, some 4, some 5⟩ :
            SubMessage).section2 = some i2 →
          exC7mono.get? i2 = some s2 → s2.offset < s3.offset) :=
  C7_submessage_sections exC7mono
    [⟨none, some 1, some 2, some 3, some 4, some 5⟩] rfl
    ⟨none, some 1, some 2, some 3, some 4, some 5⟩ (by simp)

/-- C9: the resolver's verdict is a function of the section numbers only:
two descriptor sequences whose numbers agree position by position produce
identical results (the same submessages, referencing the same indices, or
the same error), whatever their offsets, sizes and bodies. -/
theorem C9_nums_only :
    ∀ (s₁ s₂ : List SectionInfo),
      s₁.map SectionInfo.num = s₂.map SectionInfo.num →
      get_submessages s₁ = get_submessages s₂ := by
  intro s₁ s₂ hmap
  cases s₁ with
  | nil =>
    cases s₂ with
    | nil => rfl
    | cons b bs => simp at hmap
  | cons a as =>
    cases s₂ with
    | nil => simp at hmap
    | cons b bs =>
      simp only [List.map_cons, List.cons.injEq] at hmap
      obtain ⟨hab, hrest⟩ := hmap
      have hlen : as.length = bs.length := by
        have := congrArg List.length hrest
        simpa using this
      simp only [get_submessages, hab, List.length_cons, hlen]
      by_cases h1 : b.num = 1
      · simp only [if_pos h1]
        exact submLoop_congr (bs.length + 1) (bs.length + 1) as bs 1
          none none hrest
      · simp only [if_neg h1]

/-- Witness for C9: two sequences with the section numbers of the
`get_submessages_sect4_loop` test but entirely different offsets, sizes and
bodies resolve identically. -/
theorem C9_nums_only_witness :
    get_submessages exC9a = get_submessages exC9b :=
  C9_nums_only exC9a exC9b rfl

end GribParser

namespace Jpeg2000

/-- C8: the JPEG 2000 submessage decode fails with
`BitMapIndicatorUnsupported` whenever the §6 bitmap indicator is not 255;
fails with `OriginalFieldValueTypeNotSupported` whenever the
original-field-value-type byte (offset 15 of the §5 payload) is not 0; fails
with `LengthMismatch` whenever the number of decoded values differs from the
§5 `num_points`; and on success returns exactly `num_points` values. -/
theorem C8_jpeg2000_decode :
    (∀ (b5 : Sect5Body) (b6 : Sect6Body) (p : List Nat)
        (jp2 : Except Jpeg2000CodeStreamDecodeError (List Int)),
        b6.bitmap_indicator ≠ 255 →
        decode (some (.Section5 b5)) (some (.Section6 b6)) p jp2 =
          .err (.DecodeError .BitMapIndicatorUnsupported)) ∧
    (∀ (b5 : Sect5Body) (b6 : Sect6Body) (p : List Nat)
        (jp2 : Except Jpeg2000CodeStreamDecodeError (List Int)),
        b6.bitmap_indicator = 255 → 16 ≤ p.length → readBE p 15 1 ≠ 0 →
        decode (some (.Section5 b5)) (some (.Section6 b6)) p jp2 =
          .err (.DecodeError (.SimplePackingDecodeError
            .OriginalFieldValueTypeNotSupported))) ∧
    (∀ (b5 : Sect5Body) (b6 : Sect6Body) (p : List Nat) (xs : List Int),
        b6.bitmap_indicator = 255 → 16 ≤ p.length → readBE p 15 1 = 0 →
        xs.length ≠ b5.num_points →
        decode (some (.Section5 b5)) (some (.Section6 b6)) p (.ok xs) =
          .err (.DecodeError (.SimplePackingDecodeError .LengthMismatch))) ∧
    (∀ (b5 : Sect5Body) (b6 : Sect6Body) (p : List Nat) (xs : List Int),
        b6.bitmap_indicator = 255 → 16 ≤ p.length → readBE p 15 1 = 0 →
        xs.length = b5.num_points →
        ∃ vals, decode (some (.Section5 b5)) (some (.Section6 b6)) p
            (.ok xs) = .ok vals ∧ vals.length = b5.num_points) := by
  refine ⟨?_, ?_, ?_, ?_⟩
  · intro b5 b6 p jp2 h
    simp [decode, h]
  · intro b5 b6 p jp2 h255 hlen hvt
    simp [decode, h255, hvt, show ¬ (p.length < 16) by omega]
  · intro b5 b6 p xs h255 hlen hvt hnp
    simp [decode, h255, hvt, hnp, simplePackingDecode,
      show ¬ (p.length < 16) by omega]
  · intro b5 b6 p xs h255 hlen hvt hnp
    refine ⟨simplePackingDecode xs (f32ToRat (readBE p 6 4))
      (as_grib_int (readBE p 10 2)) (as_grib_int (readBE p 12 2)), ?_, ?_⟩
    · simp [decode, h255, hvt, hnp, simplePackingDecode,
        show ¬ (p.length < 16) by omega]
    · simp [simplePackingDecode, hnp]

/-- Witness for C8: the four behaviours on concrete inputs (a 16-byte all-zero
§5 payload, or one whose value-type byte is 1). -/
theorem C8_jpeg2000_decode_witness :
    decode (some (.Section5 ⟨1⟩)) (some (.Section6 ⟨0⟩))
      (List.replicate 16 0) (.ok []) =
      .err (.DecodeError .BitMapIndicatorUnsupported) ∧
    decode (some (.Section5 ⟨1⟩)) (some (.Section6 ⟨255⟩))
      (List.replicate 15 0 ++ [1]) (.ok []) =
      .err (.DecodeError (.SimplePackingDecodeError
        .OriginalFieldValueTypeNotSupported)) ∧
    decode (some (.Section5 ⟨2⟩)) (some (.Section6 ⟨255⟩))
      (List.replicate 16 0) (.ok [7]) =
      .err (.DecodeError (.SimplePackingDecodeError .LengthMismatch)) ∧
    ∃ vals, decode (some (.Section5 ⟨1⟩)) (some (.Section6 ⟨255⟩))
        (List.replicate 16 0) (.ok [7]) = .ok vals ∧ vals.length = 1 :=
  ⟨C8_jpeg2000_decode.1 ⟨1⟩ ⟨0⟩ (List.replicate 16 0) (.ok [])
     (by decide),
   C8_jpeg2000_decode.2.1 ⟨1⟩ ⟨255⟩ (List.replicate 15 0 ++ [1]) (.ok [])
     rfl (by decide) (by decide),
   C8_jpeg2000_decode.2.2.1 ⟨2⟩ ⟨255⟩ (List.replicate 16 0) [7]
     rfl (by decide) (by decide) (by decide),
   C8_jpeg2000_decode.2.2.2 ⟨1⟩ ⟨255⟩ (List.replicate 16 0) [7]
     rfl (by decide) (by decide) rfl⟩

end Jpeg2000
